import Mathlib

/-
A shallow embedding of the ARgorithm TemplateLibrary core
(`ARgorithmToolkit/utils.py` and `ARgorithmToolkit/string.py`) and proofs
about its state-recording behaviour.

Conventions of the embedding:
* Python values stored inside state definitions are modelled by `Val`;
  Python `None` is `Val.none`.
* A Python `dict` used as a state definition is an insertion-ordered
  association list `List (String × Val)`; `state_def=None` is modelled by
  the outer `Option`.
* Python exceptions are modelled by the `Err` inductive; fallible
  operations return `Except Err _`.  The source's `ARgorithmError` class
  (called "EngineError" in external documentation) is `Err.ARgorithmError`.
* Mutation of the shared `StateSet` is modelled by explicit state passing:
  every operation that appends states takes the current `StateSet` and
  returns the new one.
* Python object identity `str(id(self))` is modelled by threading an
  explicit identifier argument into constructors.
-/

namespace ARgorithm

/-- Dynamically-typed Python values as they appear inside state
definitions.  `Val.none` models Python `None`. -/
inductive Val where
  | none
  | bool (b : Bool)
  | int (i : Int)
  | str (s : String)
deriving DecidableEq

/-- A Python state-definition dictionary: `Option.none` models the Python
value `None` (used by comment states), `some kvs` an insertion-ordered
dict. -/
abbrev StateDef := Option (List (String × Val))

/-- Embeds `utils.State`: `state_type`, `state_def`, `comments`,
`autoplay`, all fixed at construction. -/
structure State where
  state_type : String
  state_def : StateDef
  comments : String
  autoplay : Bool
deriving DecidableEq

/-- The Python exceptions the embedded code can raise.
`ARgorithmError` is the source's engine error class (the spec's
"EngineError"); `assertionError` models a failing `assert cond, msg`
statement (Python raises `AssertionError`, carrying `msg`);
`attributeError att` models an `AttributeError` for a missing
attribute named `att`. -/
inductive Err where
  | ARgorithmError (msg : String)
  | typeError (msg : String)
  | attributeError (attr : String)
  | assertionError (msg : String)
  | indexError (msg : String)
  | stopIteration
deriving DecidableEq

/-- Whether an exception is the engine's own `ARgorithmError`. -/
def Err.isARgorithmError : Err → Bool
  | .ARgorithmError _ => true
  | _ => false

/-- Embeds `utils.StateSet`'s data: the ordered list of recorded states
and the (never actually set) `autoplay` attribute. -/
structure StateSet where
  states : List State
  autoplay : Option Bool
deriving DecidableEq

/-- A dynamically-typed argument handed to `add_state`: either a genuine
`State` object or some other Python value. -/
inductive PyObj where
  | state (s : State)
  | val (v : Val)
deriving DecidableEq

/-- Whether a dynamic object is a `State` (Python `isinstance(x, State)`). -/
def PyObj.isState : PyObj → Bool
  | .state _ => true
  | .val _ => false

/-- Embeds `StateSet.__init__`: accepts `autoplay` of type bool or `None`
(raising `TypeError` otherwise), starts with an empty `states` list, and
stores `self.autoplay = None` regardless of the validated argument. -/
def statesetInit (autoplay : Val) : Except Err StateSet :=
  match autoplay with
  | .none => .ok ⟨[], Option.none⟩
  | .bool _ => .ok ⟨[], Option.none⟩
  | _ => .error (.typeError "autoplay should be of type bool or None")

/-- Embeds `StateSet.add_state`: `assert isinstance(state, State),
ARgorithmError(...)` — a non-`State` argument raises `AssertionError`
(whose payload is the `ARgorithmError` message) and appends nothing; a
`State` is appended at the end of the log. -/
def StateSet.add_state (algo : StateSet) (st : PyObj) : Except Err StateSet :=
  match st with
  | .state s => .ok ⟨algo.states ++ [s], algo.autoplay⟩
  | .val _ => .error (.assertionError "state should be of Type state")

/-- Infallible append used by the wrapper classes: every call site in the
source passes a freshly built `State` object to `add_state`, on which the
`isinstance` assert always succeeds. -/
def StateSet.append1 (algo : StateSet) (st : State) : StateSet :=
  ⟨algo.states ++ [st], algo.autoplay⟩

/-- Embeds `State.__init__(**kwargs)`: iterates over the keys
`state_type`, `state_def`, `comments` in that order, raising
`ARgorithmError "<key> should be present in State arguments"` at the
first missing one; `autoplay` is read from the kwargs only when present,
otherwise the class-level default `False` stands.  The outer `Option` of
each parameter models presence of that key in `kwargs`. -/
def stateInit (state_type : Option String) (state_def : Option StateDef)
    (comments : Option String) (autoplay : Option Bool) : Except Err State :=
  match state_type with
  | Option.none => .error (.ARgorithmError "state_type should be present in State arguments")
  | some t =>
    match state_def with
    | Option.none => .error (.ARgorithmError "state_def should be present in State arguments")
    | some d =>
      match comments with
      | Option.none => .error (.ARgorithmError "comments should be present in State arguments")
      | some c => .ok ⟨t, d, c, autoplay.getD false⟩

/-- The `State` built at the wrapper call sites, which always pass
`state_type`, `state_def` and `comments` and never pass `autoplay`. -/
def mkState (t : String) (d : StateDef) (c : String) : State :=
  ⟨t, d, c, false⟩

/-- Whether a state's definition carries the key `"id"` mapped to the
given identity token, i.e. whether the state references that tracked
value. -/
def stateMentionsId (st : State) (i : String) : Bool :=
  match st.state_def with
  | Option.none => false
  | some kvs => kvs.any (fun kv => kv.1 == "id" && kv.2 == Val.str i)

/-- The dynamically-typed `algo` argument of `Variable.__init__`: either a
genuine `StateSet` or some other Python value, which has no `add_state`
attribute. -/
inductive AlgoRef where
  | stateSet (s : StateSet)
  | notStateSet (v : Val)
deriving DecidableEq

/-- Embeds the per-instance data of `utils.Variable`: display `name`,
identity `_id` (Python `str(id(self))`, threaded in explicitly), the live
`value`, and the private `__flag` that arms highlight emission.  The
shared `StateSet` the object references is passed and returned explicitly
by each operation. -/
structure Variable where
  name : String
  _id : String
  value : Val
  flag : Bool
deriving DecidableEq

/-- Embeds `Variable.__init__(name, algo, value, comments)`.  The
constructor stores `algo` unchecked; its first use is the attribute
access `self.algo.add_state`, which on a non-`StateSet` raises
`AttributeError` before any `State` is built or appended.  On a valid
`StateSet`, `self.value = value` runs through `__setattr__` with
`__flag` still false — no highlight is emitted and the flag flips to
true — and then a single `variable_declare` state is appended. -/
def variableInit (name : String) (algo : AlgoRef) (value : Val)
    (_id : String) (comments : String) : Except Err (Variable × StateSet) :=
  match algo with
  | .notStateSet _ => .error (.attributeError "add_state")
  | .stateSet s =>
      let v : Variable := ⟨name, _id, value, true⟩
      let d : StateDef := some
        [("id", .str _id), ("variable_name", .str name), ("value", value)]
      .ok (v, s.append1 (mkState "variable_declare" d comments))

/-- Embeds the `key == 'value'` path of `Variable.__setattr__` for an
assignment performed after construction: records the previous value,
stores the new one, and — because `__flag` is true — appends a
`variable_highlight` state whose definition carries `id`,
`variable_name`, the new `value`, and additionally `last_value` exactly
when the previous value was not `None`.  With `__flag` still false the
assignment just stores the value and arms the flag. -/
def Variable.setValue (v : Variable) (algo : StateSet) (newValue : Val) :
    Variable × StateSet :=
  if v.flag then
    let last_value := v.value
    let base : List (String × Val) :=
      [("id", .str v._id), ("variable_name", .str v.name), ("value", newValue)]
    let d : StateDef :=
      some (if last_value = Val.none then base else base ++ [("last_value", last_value)])
    (⟨v.name, v._id, newValue, true⟩,
     algo.append1 (mkState "variable_highlight" d ""))
  else
    (⟨v.name, v._id, newValue, true⟩, algo)

/-- A sequence of assignments `var.value = x` performed left to right. -/
def Variable.setValues (v : Variable) (algo : StateSet) (vals : List Val) :
    Variable × StateSet :=
  match vals with
  | [] => (v, algo)
  | x :: xs =>
      let p := v.setValue algo x
      p.1.setValues p.2 xs

/-- The sequence of `variable_highlight` states that a sequence of
assignments is claimed to append: one per assignment, in order, each
carrying `id`, `variable_name` and the new value, plus `last_value`
holding the immediately preceding value unless no prior value existed
(the prior value was Python `None`). -/
def highlightTrace (_id name : String) (prev : Val) (vals : List Val) : List State :=
  match vals with
  | [] => []
  | x :: xs =>
      let base : List (String × Val) :=
        [("id", .str _id), ("variable_name", .str name), ("value", x)]
      mkState "variable_highlight"
          (some (if prev = Val.none then base else base ++ [("last_value", prev)])) ""
        :: highlightTrace _id name x xs

/-- Embeds `string.StringState`, the per-instance state factory holding
the tracked value's `name` and `_id`. -/
structure StringState where
  name : String
  _id : String
deriving DecidableEq

/-- Embeds `StringState.string_declare`. -/
def StringState.string_declare (g : StringState) (body : String)
    (comments : String) : State :=
  mkState "string_declare"
    (some [("id", .str g._id), ("variable_name", .str g.name), ("body", .str body)])
    comments

/-- Embeds `StringState.string_iter`. -/
def StringState.string_iter (g : StringState) (body : String) (index : Int)
    (comments : String) : State :=
  mkState "string_iter"
    (some [("id", .str g._id), ("variable_name", .str g.name),
           ("body", .str body), ("index", .int index)])
    comments

/-- Embeds `StringState.string_append`. -/
def StringState.string_append (g : StringState) (body element : String)
    (comments : String) : State :=
  mkState "string_append"
    (some [("id", .str g._id), ("variable_name", .str g.name),
           ("body", .str body), ("element", .str element)])
    comments

/-- Embeds the per-instance data of `string.String` (named `ARString`
here because `String` is taken by Lean): the owned `state_generator` and
the live `body`.  The shared `StateSet` is passed explicitly. -/
structure ARString where
  state_generator : StringState
  body : String
deriving DecidableEq

/-- Embeds `String.__init__(name, algo, body, comments)` for textual
`name` and `body` and a valid `StateSet` (the checked failure paths take
other branches): builds the generator from `name` and the fresh identity
`_id`, stores `body`, and appends one `string_declare` state. -/
def stringInit (name : String) (algo : StateSet) (body : String)
    (comments : String) (_id : String) : ARString × StateSet :=
  let g : StringState := ⟨name, _id⟩
  (⟨g, body⟩, algo.append1 (g.string_declare body comments))

/-- Python's normalisation of an `int` subscript on a sequence of length
`n`: negative indices count from the end; out-of-range gives nothing. -/
def pyIndex (n : Nat) (i : Int) : Option Nat :=
  let j : Int := if i < 0 then (n : Int) + i else i
  if 0 ≤ j ∧ j < (n : Int) then some j.toNat else Option.none

/-- Python's clamping of one slice bound for a step-1 slice on length
`n`. -/
def clampIdx (n : Nat) (i : Int) : Nat :=
  if i < 0 then ((n : Int) + i).toNat else min i.toNat n

/-- Python's `body[a:b]` (step `None`): bounds default to the ends, are
clamped into range, and the result is the character range `[lo, hi)`. -/
def pySliceStr (s : String) (a b : Option Int) : String :=
  let n := s.length
  let lo := (a.map (clampIdx n)).getD 0
  let hi := (b.map (clampIdx n)).getD n
  String.mk ((s.toList.drop lo).take (hi - lo))

/-- Python's `str(slice(a, b, None))`, used in the source's f-string
comment for slicing. -/
def sliceRepr (a b : Option Int) : String :=
  let f : Option Int → String := fun o =>
    match o with
    | Option.none => "None"
    | some i => toString i
  "slice(" ++ f a ++ ", " ++ f b ++ ", None)"

/-- Embeds the non-slice branch of `String.__getitem__`: a `string_iter`
state for the current body and the raw key is appended first, then
`self.body[key]` is evaluated — returning the selected character, or
raising `IndexError` (after the append) when the index is out of
range. -/
def ARString.getitem (s : ARString) (algo : StateSet) (key : Int) :
    StateSet × Except Err Char :=
  let st := s.state_generator.string_iter s.body key
    ("accessing character at " ++ toString key)
  let algo' := algo.append1 st
  match pyIndex s.body.length key with
  | some j => (algo', .ok (s.body.toList.getD j ' '))
  | Option.none => (algo', .error (.indexError "string index out of range"))

/-- Embeds the slice branch of `String.__getitem__`: no state is
appended for the parent; a child `String` named `<name>_sub` is
constructed over the sliced text (with the fresh identity `childId`),
itself appending its own `string_declare`. -/
def ARString.getitem_slice (s : ARString) (algo : StateSet)
    (a b : Option Int) (childId : String) : ARString × StateSet :=
  stringInit (s.state_generator.name ++ "_sub") algo (pySliceStr s.body a b)
    ("creating new substring for " ++ sliceRepr a b) childId

/-- Embeds `String.__setitem__`: unconditionally raises
`ARgorithmError`, touching neither the body nor the `StateSet`. -/
def ARString.setitem (s : ARString) (algo : StateSet) (_key _value : Val) :
    Except Err Unit × ARString × StateSet :=
  (.error (.ARgorithmError "\x27String\x27 object does not support item assignment"),
   s, algo)

/-- The right-hand operand of `append` / `__add__`: raw text or another
tracked `String`. -/
inductive StrArg where
  | raw (t : String)
  | strObj (t : ARString)
deriving DecidableEq

/-- The text a `StrArg` contributes (`value.body` when the operand is a
tracked `String`). -/
def StrArg.text : StrArg → String
  | .raw t => t
  | .strObj t => t.body

/-- Embeds `String.append(value, comments)`: coerces a `String` operand
to its body, concatenates onto the live body, and appends one
`string_append` state carrying the new body and the appended
fragment. -/
def ARString.append (s : ARString) (algo : StateSet) (value : StrArg)
    (comments : String) : ARString × StateSet :=
  let vtext := value.text
  let body' := s.body ++ vtext
  (⟨s.state_generator, body'⟩,
   algo.append1 (s.state_generator.string_append body' vtext comments))

/-- Embeds `String.__add__(value)`: coerces a `String` operand to its
body, constructs a child `String` named `<name>_super` seeded with the
current body (fresh identity `childId`, emitting its `string_declare`),
then calls `append` on the child with the coerced text (default empty
comments), returning the child. -/
def ARString.add (s : ARString) (algo : StateSet) (value : StrArg)
    (childId : String) : ARString × StateSet :=
  let vtext := value.text
  let name := s.state_generator.name ++ "_super"
  let p := stringInit name algo s.body
    ("creating new string with " ++ vtext ++ " appended to the original string")
    childId
  p.1.append p.2 (.raw vtext) ""

/-- Embeds `string.StringIterator`: a reference to the underlying
`String`, the cursor `_index` starting at 0, and the `size` captured at
construction. -/
structure StringIterator where
  string : ARString
  _index : Nat
  size : Nat
deriving DecidableEq

/-- Embeds `String.__iter__`: returns a fresh iterator positioned at 0
with `size = len(self)`. -/
def ARString.iter (s : ARString) : StringIterator :=
  ⟨s, 0, s.body.length⟩

/-- Embeds `StringIterator.__next__`: raises `StopIteration` at the end;
otherwise reads `self.string[self._index]` through the logged indexing
path and advances the cursor. -/
def StringIterator.next (it : StringIterator) (algo : StateSet) :
    Except Err Char × StringIterator × StateSet :=
  if it._index = it.size then (.error .stopIteration, it, algo)
  else
    let p := it.string.getitem algo (it._index : Int)
    (p.2, ⟨it.string, it._index + 1, it.size⟩, p.1)

/-- Drives an iterator through at most `n` calls to `next`, collecting
the yielded characters and stopping at the first exception — the way a
`for` loop consumes the iterator (`StopIteration` ends the loop). -/
def runNexts (n : Nat) (it : StringIterator) (algo : StateSet) :
    List Char × StringIterator × StateSet :=
  match n with
  | 0 => ([], it, algo)
  | Nat.succ m =>
      match it.next algo with
      | (.ok c, it', algo') =>
          let r := runNexts m it' algo'
          (c :: r.1, r.2)
      | (.error _, it', algo') => ([], it', algo')

/-- The `string_iter` states appended by reading positions
`k, k+1, …, k+m-1` of `body` in order. -/
def iterStates (g : StringState) (body : String) (k m : Nat) : List State :=
  match m with
  | 0 => []
  | Nat.succ m' =>
      g.string_iter body (k : Int) ("accessing character at " ++ toString (k : Int))
        :: iterStates g body (k + 1) m'

theorem stateInit_all_present (t : String) (d : StateDef) (c : String) :
    stateInit (some t) (some d) (some c) Option.none = .ok (mkState t d c) := rfl

theorem add_state_eq_append1 (algo : StateSet) (s : State) :
    algo.add_state (.state s) = .ok (algo.append1 s) := rfl

theorem highlightTrace_length (_id name : String) (prev : Val) (vals : List Val) :
    (highlightTrace _id name prev vals).length = vals.length := by
  induction vals generalizing prev with
  | nil => rfl
  | cons x xs ih => simp [highlightTrace, ih]

theorem setValues_states (vals : List Val) (v : Variable) (algo : StateSet)
    (h : v.flag = true) :
    (v.setValues algo vals).2.states
      = algo.states ++ highlightTrace v._id v.name v.value vals := by
  induction vals generalizing v algo with
  | nil => simp [Variable.setValues, highlightTrace]
  | cons x xs ih =>
      simp only [Variable.setValues, Variable.setValue, h, if_true,
        highlightTrace]
      rw [ih _ _ rfl]
      simp [StateSet.append1]

theorem runNexts_succ_ok (m : Nat) (it it' : StringIterator)
    (algo algo' : StateSet) (c : Char)
    (h : it.next algo = (.ok c, it', algo')) :
    runNexts (m + 1) it algo
      = (c :: (runNexts m it' algo').1, (runNexts m it' algo').2) := by
  simp only [runNexts, h]

theorem runNexts_succ_error (m : Nat) (it it' : StringIterator)
    (algo algo' : StateSet) (e : Err)
    (h : it.next algo = (.error e, it', algo')) :
    runNexts (m + 1) it algo = ([], it', algo') := by
  simp only [runNexts, h]

theorem iterStates_length (g : StringState) (body : String) (k m : Nat) :
    (iterStates g body k m).length = m := by
  induction m generalizing k with
  | zero => rfl
  | succ m' ih => simp [iterStates, ih]

theorem pyIndex_of_lt (n : Nat) (k : Nat) (h : k < n) :
    pyIndex n (k : Int) = some k := by
  have h0 : ¬ ((k : Int) < 0) := by omega
  have h1 : (0 : Int) ≤ (k : Int) := by omega
  have h2 : (k : Int) < (n : Int) := by omega
  simp [pyIndex, h0, h1, h2]

theorem getitem_in_range (s : ARString) (algo : StateSet) (k : Nat)
    (h : k < s.body.length) :
    s.getitem algo (k : Int)
      = (algo.append1 (s.state_generator.string_iter s.body (k : Int)
            ("accessing character at " ++ toString (k : Int))),
         .ok (s.body.toList.getD k ' ')) := by
  simp [ARString.getitem, pyIndex_of_lt _ _ h]

theorem runNexts_drain (m : Nat) (it : StringIterator) (algo : StateSet)
    (hsize : it.size = it.string.body.length)
    (hidx : it._index + m = it.size) :
    runNexts (m + 1) it algo
      = (it.string.body.toList.drop it._index,
         ⟨it.string, it.size, it.size⟩,
         ⟨algo.states ++ iterStates it.string.state_generator it.string.body it._index m,
          algo.autoplay⟩) := by
  induction m generalizing it algo with
  | zero =>
      have h0 : it._index = it.size := by omega
      have hstop : it.next algo = (.error .stopIteration, it, algo) := by
        unfold StringIterator.next
        rw [if_pos h0]
      rw [runNexts_succ_error 0 it it algo algo .stopIteration hstop]
      have hd : it.string.body.toList.drop it._index = [] := by
        apply List.drop_eq_nil_of_le
        rw [h0, hsize]
        exact Nat.le_refl _
      rw [hd]
      have h2 : it = (⟨it.string, it.size, it.size⟩ : StringIterator) := by
        nth_rewrite 1 [← h0]
        rfl
      have h3 : algo
          = (⟨algo.states ++ iterStates it.string.state_generator it.string.body it._index 0,
              algo.autoplay⟩ : StateSet) := by
        simp [iterStates]
      exact Prod.ext rfl (Prod.ext h2 h3)
  | succ m' ih =>
      have hlt : it._index < it.string.body.length := by omega
      have hne : ¬ it._index = it.size := by omega
      have hnext : it.next algo
          = (.ok (it.string.body.toList.getD it._index ' '),
             ⟨it.string, it._index + 1, it.size⟩,
             algo.append1 (it.string.state_generator.string_iter it.string.body
               (it._index : Int)
               ("accessing character at " ++ toString (it._index : Int)))) := by
        simp only [StringIterator.next]
        rw [if_neg hne, getitem_in_range _ _ _ hlt]
      have hrec := ih ⟨it.string, it._index + 1, it.size⟩
        (algo.append1 (it.string.state_generator.string_iter it.string.body
          (it._index : Int)
          ("accessing character at " ++ toString (it._index : Int))))
        hsize (show it._index + 1 + m' = it.size by omega)
      rw [runNexts_succ_ok (m' + 1) it _ algo _ _ hnext, hrec]
      have hlt' : it._index < it.string.body.toList.length := hlt
      have hcons : it.string.body.toList.getD it._index ' '
          :: it.string.body.toList.drop (it._index + 1)
          = it.string.body.toList.drop it._index := by
        rw [List.drop_eq_getElem_cons hlt']
        congr 1
        simp only [List.getD_eq_getElem?_getD]
        rw [List.getElem?_eq_getElem hlt']
        rfl
      simp only [StateSet.append1, iterStates]
      refine Prod.ext ?_ (Prod.ext rfl ?_)
      · simpa using hcons
      · simp

/-- Claim C1: a `Variable` constructed with a `StateSet` emits exactly the
single `variable_declare` state (the constructor's own initial assignment
emits no highlight, arming the flag instead), and every sequence of N
subsequent assignments to `value` appends exactly N `variable_highlight`
states in assignment order — `highlightTrace` lists them: each carries
`id`, `variable_name`, the new value, and the immediately preceding value
under `last_value`, omitted exactly when no prior value existed (the
preceding value was Python `None`). -/
theorem C1_variable_highlight_trace (name _id : String) (v0 : Val)
    (comments : String) (s0 : StateSet) (vals : List Val) :
    ∃ var s1,
      variableInit name (AlgoRef.stateSet s0) v0 _id comments = .ok (var, s1) ∧
      var = (⟨name, _id, v0, true⟩ : Variable) ∧
      s1.states = s0.states
        ++ [mkState "variable_declare"
              (some [("id", .str _id), ("variable_name", .str name), ("value", v0)])
              comments] ∧
      (var.setValues s1 vals).2.states
        = s1.states ++ highlightTrace _id name v0 vals ∧
      (highlightTrace _id name v0 vals).length = vals.length := by
  refine ⟨⟨name, _id, v0, true⟩,
    s0.append1 (mkState "variable_declare"
      (some [("id", .str _id), ("variable_name", .str name), ("value", v0)]) comments),
    rfl, rfl, rfl, ?_, highlightTrace_length _ _ _ _⟩
  exact setValues_states vals _ _ rfl

/-- Claim C6: indexed assignment on a `String` always fails with
`ARgorithmError` (the spec's EngineError), leaves the body unchanged and
appends zero states — an explicit rejection, never a silent no-op. -/
theorem C6_setitem_rejected (s : ARString) (algo : StateSet) (key value : Val) :
    s.setitem algo key value
      = (.error (.ARgorithmError "\x27String\x27 object does not support item assignment"),
         s, algo) ∧
    Err.isARgorithmError
        (.ARgorithmError "\x27String\x27 object does not support item assignment")
      = true :=
  ⟨rfl, rfl⟩

/-- Claim C7: `add_state` appends a genuine `State` at the end of the
ordered log (the log grows by exactly one, the existing prefix
unchanged, the append being the only observable effect), and fails on a
non-`State` argument — the `isinstance` assert raises, complaining about
the argument's type — appending nothing. -/
theorem C7_add_state_contract (algo : StateSet) (x : PyObj) :
    (∀ s, x = PyObj.state s →
        algo.add_state x = .ok ⟨algo.states ++ [s], algo.autoplay⟩) ∧
    (x.isState = false →
        algo.add_state x = .error (.assertionError "state should be of Type state")) := by
  constructor
  · rintro s rfl
    rfl
  · intro h
    cases x with
    | state s => simp [PyObj.isState] at h
    | val v => rfl

theorem C7_add_state_contract_witness :
    StateSet.add_state ⟨[], Option.none⟩ (PyObj.state (mkState "comment" Option.none "hi"))
      = .ok ⟨[mkState "comment" Option.none "hi"], Option.none⟩ ∧
    StateSet.add_state ⟨[], Option.none⟩ (PyObj.val (Val.int 3))
      = .error (.assertionError "state should be of Type state") := by
  constructor
  · exact (C7_add_state_contract ⟨[], Option.none⟩
      (PyObj.state (mkState "comment" Option.none "hi"))).1 _ rfl
  · exact (C7_add_state_contract ⟨[], Option.none⟩ (PyObj.val (Val.int 3))).2 rfl

/-- Claim C8 counterexample: constructing a `State` supplying only
`state_type` and `state_def` does not succeed with empty comments — the
constructor requires the `comments` key and raises `ARgorithmError`. -/
theorem C8_counterexample :
    stateInit (some "variable_declare") (some (some [])) Option.none Option.none
      = .error (.ARgorithmError "comments should be present in State arguments") := rfl

/-- Claim C8 as amended: `state_type`, `state_def` and `comments` are all
required constructor fields — construction missing any of them fails with
`ARgorithmError` naming the first missing key — while `autoplay` alone is
optional, defaulting to `false` when absent and stored as given when
present. -/
theorem C8_amended_required_comments (t : String) (d : StateDef) (c : String)
    (a : Bool) :
    stateInit (some t) (some d) (some c) Option.none = .ok ⟨t, d, c, false⟩ ∧
    stateInit (some t) (some d) (some c) (some a) = .ok ⟨t, d, c, a⟩ ∧
    stateInit Option.none (some d) (some c) Option.none
      = .error (.ARgorithmError "state_type should be present in State arguments") ∧
    stateInit (some t) Option.none (some c) Option.none
      = .error (.ARgorithmError "state_def should be present in State arguments") ∧
    stateInit (some t) (some d) Option.none Option.none
      = .error (.ARgorithmError "comments should be present in State arguments") :=
  ⟨rfl, rfl, rfl, rfl, rfl⟩

/-- Claim C9 counterexample: constructing a `Variable` with a non-`StateSet`
`algo` argument fails with `AttributeError` (the missing `add_state`
attribute), which is not the engine's `ARgorithmError` (EngineError). -/
theorem C9_counterexample :
    variableInit "flag" (AlgoRef.notStateSet (Val.int 5)) Val.none "140230" ""
      = .error (.attributeError "add_state") ∧
    Err.isARgorithmError (.attributeError "add_state") = false :=
  ⟨rfl, rfl⟩

/-- Claim C9 as amended: for every name and value, constructing a
`Variable` with a `stateSet` argument that is not a valid `StateSet`
fails — but with `AttributeError` from the `self.algo.add_state`
attribute access (the constructor performs no validation), not with
EngineError — and the failed construction appends no state anywhere (the
error is raised before any `State` is built or any log touched). -/
theorem C9_amended_attribute_error (name : String) (bad value : Val)
    (_id comments : String) :
    variableInit name (AlgoRef.notStateSet bad) value _id comments
      = .error (.attributeError "add_state") := rfl

/-- Claim C10: every accepted construction of a `StateSet` — with
`autoplay=true`, `autoplay=false` or unset — yields a set whose
`autoplay` attribute is `None` (the validated argument is discarded) and
whose `states` list starts empty. -/
theorem C10_autoplay_discarded (b : Bool) :
    statesetInit (Val.bool b) = .ok ⟨[], Option.none⟩ ∧
    statesetInit Val.none = .ok ⟨[], Option.none⟩ := by
  cases b <;> exact ⟨rfl, rfl⟩

/-- Claim C2: reading a `String` at an in-range index `i` appends exactly
one state — a `string_iter` whose `index` field is `i` and whose `body`
field is the current body — leaves the body unchanged (the operation
returns no modified string), and returns the character of the body at
position `i`. -/
theorem C2_string_index_read (s : ARString) (algo : StateSet) (i : Nat)
    (h : i < s.body.length) :
    s.getitem algo (i : Int)
      = (⟨algo.states ++ [s.state_generator.string_iter s.body (i : Int)
              ("accessing character at " ++ toString (i : Int))],
          algo.autoplay⟩,
         .ok (s.body.toList.getD i ' ')) ∧
    s.body.toList.get? i = some (s.body.toList.getD i ' ') := by
  have hl : i < s.body.toList.length := h
  constructor
  · rw [getitem_in_range s algo i h]
    rfl
  · rw [List.get?_eq_get hl]
    congr 1
    simp only [List.getD_eq_getElem?_getD]
    rw [List.getElem?_eq_getElem hl]
    simp [List.get_eq_getElem]

theorem C2_string_index_read_witness :
    (1 : Nat) < ("ab" : String).length ∧
    ((⟨⟨"st", "11"⟩, "ab"⟩ : ARString).getitem ⟨[], Option.none⟩ ((1 : Nat) : Int)
        = (⟨[] ++ [StringState.string_iter ⟨"st", "11"⟩ "ab" ((1 : Nat) : Int)
                ("accessing character at " ++ toString ((1 : Nat) : Int))],
            Option.none⟩,
           .ok (("ab" : String).toList.getD 1 ' ')) ∧
      ("ab" : String).toList.get? 1 = some (("ab" : String).toList.getD 1 ' ')) :=
  ⟨by decide, C2_string_index_read ⟨⟨"st", "11"⟩, "ab"⟩ ⟨[], Option.none⟩ 1 (by decide)⟩

/-- Claim C4: `s + v` (for `v` raw text or another `String`) returns a
brand-new `String` named `<s.name>_super` whose body is the
concatenation, appending exactly two states in order — the child's
`string_declare` with body equal to `s`'s body at call time, then the
child's `string_append` with the concatenated body and the appended
fragment — while `s` itself is untouched (the embedding returns only the
child; both new states carry the child's identity, not `s`'s). -/
theorem C4_add_two_states (s : ARString) (algo : StateSet) (value : StrArg)
    (childId : String) :
    s.add algo value childId
      = (⟨⟨s.state_generator.name ++ "_super", childId⟩, s.body ++ value.text⟩,
         ⟨algo.states
            ++ [StringState.string_declare ⟨s.state_generator.name ++ "_super", childId⟩
                  s.body
                  ("creating new string with " ++ value.text
                    ++ " appended to the original string"),
                StringState.string_append ⟨s.state_generator.name ++ "_super", childId⟩
                  (s.body ++ value.text) value.text ""],
          algo.autoplay⟩) := by
  simp [ARString.add, stringInit, ARString.append, StateSet.append1, StrArg.text]

/-- Claim C5: slicing a `String` appends exactly one state to the shared
set — the `string_declare` of the returned child, named `<s.name>_sub`
over the sliced text — does not change `s`'s body (the parent is not
part of the result), and none of the appended states references `s`'s
id (the one appended state carries the child's fresh identity). -/
theorem C5_slice_frame (s : ARString) (algo : StateSet) (a b : Option Int)
    (childId : String) (h : childId ≠ s.state_generator._id) :
    s.getitem_slice algo a b childId
      = (⟨⟨s.state_generator.name ++ "_sub", childId⟩, pySliceStr s.body a b⟩,
         ⟨algo.states
            ++ [StringState.string_declare ⟨s.state_generator.name ++ "_sub", childId⟩
                  (pySliceStr s.body a b)
                  ("creating new substring for " ++ sliceRepr a b)],
          algo.autoplay⟩) ∧
    (List.drop algo.states.length (s.getitem_slice algo a b childId).2.states).all
        (fun st => ! stateMentionsId st s.state_generator._id) = true := by
  constructor
  · rfl
  · have hdrop : List.drop algo.states.length (s.getitem_slice algo a b childId).2.states
        = [StringState.string_declare ⟨s.state_generator.name ++ "_sub", childId⟩
            (pySliceStr s.body a b)
            ("creating new substring for " ++ sliceRepr a b)] := by
      have : (s.getitem_slice algo a b childId).2.states
          = algo.states
            ++ [StringState.string_declare ⟨s.state_generator.name ++ "_sub", childId⟩
                  (pySliceStr s.body a b)
                  ("creating new substring for " ++ sliceRepr a b)] := rfl
      rw [this, List.drop_left]
    rw [hdrop]
    simp [stateMentionsId, StringState.string_declare, mkState, h]

theorem C5_slice_frame_witness :
    ("99" : String) ≠ ("11" : String) ∧
    ((⟨⟨"st", "11"⟩, "abcd"⟩ : ARString).getitem_slice ⟨[], Option.none⟩
          (some 1) (some 3) "99"
        = (⟨⟨"st" ++ "_sub", "99"⟩, pySliceStr "abcd" (some 1) (some 3)⟩,
           ⟨[] ++ [StringState.string_declare ⟨"st" ++ "_sub", "99"⟩
                  (pySliceStr "abcd" (some 1) (some 3))
                  ("creating new substring for " ++ sliceRepr (some 1) (some 3))],
            Option.none⟩) ∧
      (List.drop ([] : List State).length
          ((⟨⟨"st", "11"⟩, "abcd"⟩ : ARString).getitem_slice ⟨[], Option.none⟩
            (some 1) (some 3) "99").2.states).all
          (fun st => ! stateMentionsId st "11") = true) :=
  ⟨by decide,
   C5_slice_frame ⟨⟨"st", "11"⟩, "abcd"⟩ ⟨[], Option.none⟩ (some 1) (some 3) "99"
     (by decide)⟩

/-- Claim C3: `__iter__` always returns a fresh forward-only iterator
(cursor 0, size `len(s)`); a full iteration of an N-character `String`
yields exactly its N characters in position order and appends exactly N
`string_iter` states (one per position, in order); two independent full
iterations of the same `String` each yield the N characters and append N
states each, 2N in total. -/
theorem C3_iteration_restartable (s : ARString) (algo : StateSet) :
    s.iter = ⟨s, 0, s.body.length⟩ ∧
    (runNexts (s.body.length + 1) s.iter algo).1 = s.body.toList ∧
    (runNexts (s.body.length + 1) s.iter algo).2.2.states
      = algo.states ++ iterStates s.state_generator s.body 0 s.body.length ∧
    (runNexts (s.body.length + 1) s.iter
        (runNexts (s.body.length + 1) s.iter algo).2.2).1 = s.body.toList ∧
    (runNexts (s.body.length + 1) s.iter
        (runNexts (s.body.length + 1) s.iter algo).2.2).2.2.states
      = algo.states ++ iterStates s.state_generator s.body 0 s.body.length
          ++ iterStates s.state_generator s.body 0 s.body.length ∧
    (iterStates s.state_generator s.body 0 s.body.length).length = s.body.length ∧
    (runNexts (s.body.length + 1) s.iter
        (runNexts (s.body.length + 1) s.iter algo).2.2).2.2.states.length
      = algo.states.length + 2 * s.body.length := by
  have key : ∀ a : StateSet, runNexts (s.body.length + 1) s.iter a
      = (s.body.toList, ⟨s, s.body.length, s.body.length⟩,
         ⟨a.states ++ iterStates s.state_generator s.body 0 s.body.length,
          a.autoplay⟩) := by
    intro a
    have h1 := runNexts_drain s.body.length s.iter a rfl (Nat.zero_add _)
    simpa [ARString.iter] using h1
  refine ⟨rfl, ?_, ?_, ?_, ?_, iterStates_length _ _ _ _, ?_⟩
  · rw [key]
  · rw [key]
  · rw [key, key]
  · rw [key, key]
  · rw [key, key]
    simp only [List.length_append, iterStates_length]
    ring

end ARgorithm
